import Mathlib

/-!
Shallow embedding of the Slack/Vonage monitoring app
(src/agent_alerts_weekly_form.py, the complete draft that implements the
presence tracker, duration tracker, alert decision engine and alert
de-duplication described by the spec; src/app.py is an earlier draft of the
same webhook without the duration-tracking tables).

Modelling conventions:
- timestamps are rationals counting seconds (Python datetimes are
  microsecond-precision; all arithmetic the code performs on them —
  total_seconds, /1000, /60 — is exact rational arithmetic);
- the Python module-level dicts agent_presence_states,
  agent_state_timestamps and last_alerts become association lists keyed by
  the same strings the code uses (f-string keys like "agent:state");
- pytz timezone conversion is external I/O; it is modelled by an
  uninterpreted total function (a Localizer) from a timezone name and a UTC
  timestamp to the local weekday abbreviation and local minute-of-day,
  exactly the two pieces of the local datetime that is_within_shift
  inspects;
- dateutil timestamp parsing is external; an envelope's "time" field is
  modelled by its parse outcome (absent / present-but-unparseable /
  parsed value), mirroring the try/except around parse();
- Slack/Sheets delivery is external; the success of post_slack_message is
  an input bit (postOk) of each request.
-/

namespace SlackVonage

/-- Association-list lookup, modelling Python dict read (dicts built by the
code have unique keys). -/
def alookup {β : Type} : List (String × β) → String → Option β
  | [], _ => none
  | (k, v) :: rest, key => if k = key then some v else alookup rest key

/-- Association-list write, modelling Python dict assignment. -/
def aset {β : Type} (key : String) (v : β) : List (String × β) → List (String × β)
  | [] => [(key, v)]
  | (k, w) :: rest => if k = key then (k, v) :: rest else (k, w) :: aset key v rest

/-- Association-list delete, modelling Python `del d[key]`. -/
def aerase {β : Type} (key : String) : List (String × β) → List (String × β)
  | [] => []
  | (k, w) :: rest => if k = key then rest else (k, w) :: aerase key rest

/-! ## Static configuration: agent_shifts (lines 255-456 of the source) -/

/-- The agent_shifts table: agent name ↦ (timezone, day ↦ (start, end)). -/
def agent_shifts : List (String × String × List (String × String × String)) :=
  [("Briana Roque", ("Canada/Atlantic",
     [("Mon", ("11am", "7pm")), ("Tue", ("11am", "7pm")), ("Wed", ("11am", "7pm")),
      ("Thu", ("11am", "7pm")), ("Fri", ("11am", "7pm"))])),
   ("Carla Hagerman", ("US/Eastern",
     [("Tue", ("10am", "6pm")), ("Wed", ("10am", "6pm")), ("Thu", ("10am", "6pm")),
      ("Fri", ("10am", "6pm")), ("Sat", ("4pm", "12am"))])),
   ("Carleisha Smith", ("US/Central",
     [("Thu", ("12am", "8am")), ("Fri", ("12am", "8am")), ("Sat", ("12am", "8am")),
      ("Sun", ("12am", "8am")), ("Mon", ("12am", "8am"))])),
   ("Cassandra Dunn", ("US/Pacific",
     [("Mon", ("1pm", "9pm")), ("Tue", ("1pm", "9pm")), ("Wed", ("1pm", "9pm")),
      ("Thu", ("1pm", "9pm")), ("Fri", ("1pm", "9pm"))])),
   ("Crystalbell Miranda", ("US/Pacific",
     [("Tue", ("12pm", "8pm")), ("Wed", ("12pm", "8pm")), ("Thu", ("12pm", "8pm")),
      ("Fri", ("12pm", "8pm")), ("Sat", ("12pm", "8pm"))])),
   ("Dajah Blackwell", ("US/Central",
     [("Sun", ("10am", "6pm")), ("Mon", ("10am", "6pm")), ("Tue", ("10am", "6pm")),
      ("Wed", ("10am", "6pm")), ("Thu", ("10am", "6pm"))])),
   ("Felicia Martin", ("US/Eastern",
     [("Mon", ("8am", "4pm")), ("Tue", ("8am", "4pm")), ("Wed", ("8am", "4pm")),
      ("Thu", ("8am", "4pm")), ("Fri", ("8am", "4pm"))])),
   ("Felicia Randall", ("Canada/Atlantic",
     [("Tue", ("11am", "7pm")), ("Wed", ("11am", "7pm")), ("Thu", ("11am", "7pm")),
      ("Fri", ("11am", "7pm")), ("Sat", ("11am", "7pm"))])),
   ("Indira Gonzalez", ("US/Eastern",
     [("Tue", ("2pm", "10pm")), ("Wed", ("2pm", "10pm")), ("Thu", ("2pm", "10pm")),
      ("Fri", ("2pm", "10pm")), ("Sat", ("2pm", "10pm"))])),
   ("Jason McLaughlin", ("US/Central",
     [("Sun", ("8am", "4pm")), ("Mon", ("8am", "4pm")), ("Tue", ("8am", "4pm")),
      ("Wed", ("8am", "4pm")), ("Thu", ("8am", "4pm"))])),
   ("Jeanette Bantz", ("US/Central",
     [("Tue", ("9am", "5pm")), ("Wed", ("9am", "5pm")), ("Thu", ("9am", "5pm")),
      ("Fri", ("9am", "5pm")), ("Sat", ("8am", "4pm"))])),
   ("Jesse Lorenzana Escarfullery", ("Canada/Atlantic",
     [("Mon", ("11am", "7pm")), ("Tue", ("11am", "7pm")), ("Wed", ("11am", "7pm")),
      ("Thu", ("11am", "7pm")), ("Fri", ("11am", "7pm"))])),
   ("Jessica Lopez", ("Canada/Atlantic",
     [("Mon", ("12am", "8am")), ("Tue", ("12am", "8am")), ("Wed", ("12am", "8am")),
      ("Thu", ("12am", "8am")), ("Fri", ("12am", "8am"))])),
   ("Lakeira Robinson", ("US/Eastern",
     [("Sun", ("10am", "6pm")), ("Mon", ("10am", "6pm")), ("Tue", ("10am", "6pm")),
      ("Wed", ("10am", "6pm")), ("Thu", ("10am", "6pm"))])),
   ("Lyne Jean", ("US/Eastern",
     [("Sun", ("8am", "4pm")), ("Mon", ("8am", "4pm")), ("Tue", ("8am", "4pm")),
      ("Wed", ("8am", "4pm")), ("Thu", ("8am", "4pm"))])),
   ("Natalie Sukhu", ("US/Eastern",
     [("Tue", ("2pm", "10pm")), ("Wed", ("2pm", "10pm")), ("Thu", ("2pm", "10pm")),
      ("Fri", ("2pm", "10pm")), ("Sat", ("2pm", "10pm"))])),
   ("Nicole Coleman", ("US/Pacific",
     [("Tue", ("10am", "6pm")), ("Wed", ("10am", "6pm")), ("Thu", ("10am", "6pm")),
      ("Fri", ("10am", "6pm")), ("Sat", ("10am", "6pm"))])),
   ("Peggy Richardson", ("US/Pacific",
     [("Sun", ("10am", "6pm")), ("Mon", ("10am", "6pm")), ("Tue", ("10am", "6pm")),
      ("Wed", ("10am", "6pm")), ("Thu", ("10am", "6pm"))])),
   ("Ramona Marshall", ("US/Eastern",
     [("Mon", ("8am", "4pm")), ("Tue", ("8am", "4pm")), ("Wed", ("8am", "4pm")),
      ("Thu", ("8am", "4pm")), ("Fri", ("8am", "4pm"))])),
   ("Rebecca Stokes", ("US/Central",
     [("Sun", ("4pm", "12am")), ("Mon", ("4pm", "12am")), ("Tue", ("4pm", "12am")),
      ("Wed", ("4pm", "12am")), ("Thu", ("4pm", "12am"))]))]

/-! ## Shift calendar -/

/-- Fold a list of decimal digit characters into a number. -/
def digitsToNat (l : List Char) : Nat :=
  l.foldl (fun n c => 10 * n + (c.toNat - 48)) 0

/-- Semantics of `datetime.strptime(s, "%I%p")` restricted to the minute of
day it denotes: an hour 1-12 followed by am/pm.  Returns the minute of the
local day, or none when strptime would raise (which is_within_shift turns
into False via its try/except). -/
def parse12 (s : String) : Option Nat :=
  let l := s.toList
  let ds := l.takeWhile Char.isDigit
  let rest := l.dropWhile Char.isDigit
  if ds = [] then none
  else
    let h := digitsToNat ds
    if h < 1 ∨ 12 < h then none
    else if rest = ['a', 'm'] then some ((h % 12) * 60)
    else if rest = ['p', 'm'] then some ((h % 12 + 12) * 60)
    else none

/-- External timezone conversion (pytz astimezone + strftime): maps a
timezone name and a UTC timestamp to the local weekday abbreviation and the
local minute of day.  Uninterpreted: the theorems hold for every localizer. -/
def Localizer : Type := String → ℚ → String × ℚ

/-- is_within_shift (source lines 459-481): look the agent up in
agent_shifts, convert the timestamp to the agent's local time, fetch that
weekday's window, parse both window bounds with strptime("%I%p") anchored on
the local calendar date, and test inclusive containment
start_time <= local_time <= end_time.  On the same calendar date that
containment is exactly a minute-of-day comparison.  Any lookup/parse failure
(unknown agent, unstaffed day, strptime error) yields False via the
function's try/except. -/
def is_within_shift (loc : Localizer) (agent : String) (timestamp : ℚ) : Bool :=
  match alookup agent_shifts agent with
  | none => false
  | some (tzname, shifts) =>
    match alookup shifts (loc tzname timestamp).1 with
    | none => false
    | some (startStr, endStr) =>
      match parse12 startStr, parse12 endStr with
      | some s, some e =>
        decide ((s : ℚ) ≤ (loc tzname timestamp).2 ∧ (loc tzname timestamp).2 ≤ (e : ℚ))
      | _, _ => false

/-! ## Duration tracking and the alert decision engine -/

/-- parse_duration (source lines 484-490): milliseconds to minutes.  The
except-branch (degrade to 0) is unreachable for the numeric inputs the
handler passes. -/
def parse_duration (duration_ms : ℚ) : ℚ :=
  duration_ms / 1000 / 60

/-- get_event_duration (source lines 493-506): milliseconds since the
stored entry timestamp for the key "agent:state", 0 when no entry exists. -/
def get_event_duration (sts : List (String × ℚ)) (agent current_state : String)
    (current_timestamp : ℚ) : ℚ :=
  match alookup sts (agent ++ ":" ++ current_state) with
  | none => 0
  | some start_timestamp => (current_timestamp - start_timestamp) * 1000

/-- should_trigger_alert (source lines 589-614).  The two writes into
event_data ("alert_agent_state", "alert_duration_min") echo the arguments
back to the caller unchanged and carry no decision logic, so they are not
modelled; with a dict present the except-branch is unreachable. -/
def should_trigger_alert (agent_state : String) (duration_min : ℚ)
    (is_in_shift : Bool) : Bool :=
  if (agent_state = "Wrap" ∨ agent_state = "Outgoing Wrap Up") ∧ duration_min > 2 then
    true
  else if (agent_state = "Ready" ∨ agent_state = "Ready Outbound" ∨
      agent_state = "Idle" ∨ agent_state = "Idle (Outbound)") ∧
      duration_min > 2 ∧ is_in_shift = true then
    true
  else if agent_state = "Busy" ∧ duration_min > 8 then
    true
  else if agent_state = "Lunch" ∧ duration_min > 30 then
    true
  else if agent_state = "Break" ∧ duration_min > 15 then
    true
  else if agent_state = "Comfort Break" ∧ duration_min > 5 then
    true
  else if agent_state = "Logged Out" ∧ is_in_shift = true then
    true
  else if agent_state = "Device Busy" ∨ agent_state = "Device Unreachable" ∨
      agent_state = "Fault" ∨ agent_state = "In Meeting" ∨ agent_state = "Paperwork" ∨
      agent_state = "Team Meeting" ∨ agent_state = "Training" then
    true
  else
    false

/-! ## Event envelopes

The vendor JSON envelope, restricted to the fields the handler reads.
Nested dict reads with defaults (`.get(...)`) become Option fields or
defaulted strings. -/

/-- Outcome of reading and parsing the envelope's "time"-like fields:
the field is missing (Python falsy), present but rejected by
dateutil.parser.parse, or parsed to a UTC timestamp. -/
inductive TimeField
  | absent
  | malformed
  | valid (t : ℚ)
deriving DecidableEq

/-- A user object (data.user): the three name keys the handler reads. -/
structure UserData where
  name : Option String
  displayName : Option String
  agentName : Option String
deriving DecidableEq

/-- A channel description inside data.interaction ("channel" or an element
of "channels"): the two name keys the handler reads. -/
structure IChannel where
  agentName : Option String
  name : Option String
deriving DecidableEq

/-- data.interaction, restricted to the keys the handler reads. -/
structure InteractionData where
  channel : Option IChannel
  channels : Option (List IChannel)
  state : String
  startTime : TimeField
  endTime : TimeField
deriving DecidableEq

/-- data.channel: whether a "party" key is present, plus the two name keys
the handler reads at channel level. -/
structure ChannelData where
  party : Bool
  agentName : Option String
  name : Option String
deriving DecidableEq

/-- The "data" member of the envelope.  The presence strings are the results
of the defaulted nested reads data.presence.category.type,
data.presence.category.subcategory and data.presence.description (each "" when
any link of the chain is missing), before lower-casing. -/
structure EventData where
  user : Option UserData
  interaction : Option InteractionData
  channel : Option ChannelData
  presenceType : String
  presenceSub : String
  presenceDesc : String
deriving DecidableEq

/-- The inbound JSON envelope: "type", "time" and "data". -/
structure Envelope where
  etype : Option String
  time : TimeField
  data : EventData
deriving DecidableEq

/-- Python `a or b` on optional strings: None and "" are falsy. -/
def pyOr (a b : Option String) : Option String :=
  match a with
  | some s => if s = "" then b else some s
  | none => b

/-- Python truthiness of the agent variable: None and "" are falsy. -/
def truthyStr : Option String → Bool
  | none => false
  | some s => !(s = "")

/-- The for-loop over interaction.channels (source lines 713-717): write
agentName-or-name for each channel, break at the first truthy value; the
loop leaves the last written value in `agent`. -/
def loopAgent : List IChannel → Option String
  | [] => none
  | [c] => pyOr c.agentName c.name
  | c :: rest =>
    let a := pyOr c.agentName c.name
    if truthyStr a then a else loopAgent rest

/-- Agent-name extraction (source lines 704-721), tried in source order:
presence-change user object; interaction.channel; the loop over
interaction.channels; data.channel when it has a "party" key; bare user
object. -/
def extract_agent (event_type : String) (d : EventData) : Option String :=
  if event_type = "agent.presencechanged.v1" then
    let u := d.user.getD ⟨none, none, none⟩
    pyOr (pyOr u.name u.displayName) u.agentName
  else
    match d.interaction with
    | some it =>
      match it.channel with
      | some ch => pyOr ch.agentName ch.name
      | none =>
        match it.channels with
        | some chs => loopAgent chs
        | none => none
    | none =>
      match d.channel with
      | some ch =>
        if ch.party then pyOr ch.agentName ch.name
        else
          match d.user with
          | some u => pyOr (pyOr u.name u.displayName) u.agentName
          | none => none
      | none =>
        match d.user with
        | some u => pyOr (pyOr u.name u.displayName) u.agentName
        | none => none

/-- The `if not agent` guard (source line 723) applied to the extraction
result: a falsy (missing or empty) name means no agent. -/
def agentValue (event_type : String) (d : EventData) : Option String :=
  match extract_agent event_type d with
  | some a => if a = "" then none else some a
  | none => none

/-! ## State classifier -/

/-- ASCII lower-casing of one character, the semantics of Python
str.lower() on the ASCII event-kind and presence strings this system
compares. -/
def lowerChar (c : Char) : Char :=
  if 65 ≤ c.toNat ∧ c.toNat ≤ 90 then Char.ofNat (c.toNat + 32) else c

/-- Python str.lower() on the strings this system handles. -/
def strLower (s : String) : String := String.mk (s.toList.map lowerChar)

/-- Python `pat in s` substring test on strings. -/
def strContains (s pat : String) : Bool :=
  (List.range (s.toList.length + 1)).any
    (fun i => pat.toList.isPrefixOf (s.toList.drop i))

/-- Presence-change classification (source lines 760-789): the lower-cased
category type selects the state; ready/idle additionally look for "outbound"
in the lower-cased subcategory or description. -/
def classify_presence (d : EventData) : Option String :=
  let p := strLower d.presenceType
  let sub := strLower d.presenceSub
  let desc := strLower d.presenceDesc
  if p = "ready" then
    if strContains sub "outbound" || strContains desc "outbound" ||
        strContains sub "ready_outbound" || strContains desc "ready_outbound" then
      some "Ready Outbound"
    else some "Ready"
  else if p = "lunch" then some "Lunch"
  else if p = "break" then some "Break"
  else if p = "comfort_break" then some "Comfort Break"
  else if p = "logged_out" then some "Logged Out"
  else if p = "training" then some "Training"
  else if p = "meeting" then some "In Meeting"
  else if p = "paperwork" then some "Paperwork"
  else if p = "idle" then
    if strContains sub "outbound" || strContains desc "outbound" then
      some "Idle (Outbound)"
    else some "Idle"
  else if p = "team_meeting" then some "Team Meeting"
  else none

/-- Channel lifecycle event-kind → state table (source lines 833-849). -/
def channel_state (event_type : String) : Option String :=
  if event_type = "channel.connectionfailed.v1" then some "Device Busy"
  else if event_type = "channel.ended.v1" then some "Logged Out"
  else if event_type = "channel.held.v1" then some "Break"
  else if event_type = "channel.interrupted.v1" then some "Break"
  else if event_type = "channel.resumed.v1" then some "Ready"
  else if event_type = "channel.retrieved.v1" then some "Ready"
  else if event_type = "channel.unparked.v1" then some "Ready"
  else if event_type = "channel.wrapstarted.v1" then some "Wrap"
  else none

/-! ## The webhook handler /vonage-events (source lines 671-936) -/

/-- The process-wide mutable dictionaries (source lines 86-92). -/
structure ServerState where
  agent_presence_states : List (String × String × ℚ)
  agent_state_timestamps : List (String × ℚ)
  last_alerts : List (String × ℚ)
deriving DecidableEq

/-- The empty dictionaries the process starts with. -/
def initState : ServerState := ⟨[], [], []⟩

/-- An HTTP response: status code plus the jsonify body's "status" and
optional "message". -/
structure Response where
  code : Nat
  status : String
  message : Option String
deriving DecidableEq

/-- An alert emission: log_to_followups plus the Slack post for one firing
decision.  delivered records whether post_slack_message succeeded (only then
is the de-duplication fingerprint written, source lines 925-928). -/
structure FiredAlert where
  agent : String
  stateName : String
  durationMin : ℚ
  time : ℚ
  delivered : Bool
deriving DecidableEq

/-- Everything one request produces: the HTTP response, the new global
state, the elapsed minutes the handler computed at source lines 866-867
(none when an early return happens before that point), and the alert it
fired, if any. -/
structure StepResult where
  resp : Response
  state : ServerState
  durationMin : Option ℚ
  fired : Option FiredAlert
deriving DecidableEq

/-- Resolution of the envelope's "time" field (source lines 692-697):
missing → datetime.utcnow() at arrival (the `now` argument); present but
unparseable → none (the handler answers 400); parsed → its value. -/
def timeValue : TimeField → ℚ → Option ℚ
  | .absent, now => some now
  | .malformed, _ => none
  | .valid t, _ => some t

/-- Classification stage with its in-place dictionary updates (source lines
758-830): a presence change that classifies overwrites the agent's presence
record and the (agent, state) entry timestamp; an activity record keyed on
interaction.state writes the entry timestamp from the interaction's
startTime and deletes it when an endTime is present. -/
def classifyTrack (st : ServerState) (event_type : String) (timestamp : ℚ)
    (d : EventData) (agent : String) : Option String × ServerState :=
  if event_type = "agent.presencechanged.v1" then
    match classify_presence d with
    | some s =>
      (some s,
       { st with
           agent_presence_states := aset agent (s, timestamp) st.agent_presence_states,
           agent_state_timestamps :=
             aset (agent ++ ":" ++ s) timestamp st.agent_state_timestamps })
    | none => (none, st)
  else if event_type = "channel.activityrecord.v0" then
    let it := d.interaction.getD ⟨none, none, "", .absent, .absent⟩
    let stateStr := strLower it.state
    let a_state : Option String :=
      if stateStr = "wrap" then some "Wrap"
      else if stateStr = "busy" then some "Busy"
      else if stateStr = "ready" then some "Ready"
      else none
    let st_a :=
      match a_state, it.startTime with
      | some s, .valid t0 =>
        { st with
            agent_state_timestamps := aset (agent ++ ":" ++ s) t0 st.agent_state_timestamps }
      | _, _ => st
    let st_b :=
      match it.endTime with
      | .valid _ =>
        { st_a with
            agent_state_timestamps :=
              aerase (agent ++ ":" ++ (match a_state with | some s => s | none => "None"))
                st_a.agent_state_timestamps }
      | _ => st_a
    (a_state, st_b)
  else (none, st)

/-- Fallback chain after classification (source lines 832-857): channel
lifecycle table, then the stored presence record, then "Unknown" for any
remaining falsy value. -/
def finalState (classified : Option String) (event_type : String)
    (pres : List (String × String × ℚ)) (agent : String) : String :=
  let c₁ :=
    match classified with
    | some s => some s
    | none => channel_state event_type
  let c₂ :=
    match c₁ with
    | some s => some s
    | none => (alookup pres agent).map Prod.fst
  match c₂ with
  | some s => if s = "" then "Unknown" else s
  | none => "Unknown"

/-- Lines 859-863: create the (agent, state) entry timestamp only when it
is not already set. -/
def ensureKey (st : ServerState) (key : String) (timestamp : ℚ) : ServerState :=
  if (alookup st.agent_state_timestamps key).isSome then st
  else { st with agent_state_timestamps := aset key timestamp st.agent_state_timestamps }

/-- The de-duplication gate (source lines 879-886): a recorded prior fire
for the fingerprint strictly less than 5 minutes before the event suppresses
the alert. -/
def dedupHit (la : List (String × ℚ)) (key : String) (timestamp : ℚ) : Bool :=
  match alookup la key with
  | some last_alert_time => decide ((timestamp - last_alert_time) / 60 < 5)
  | none => false

/-- The tail of the handler once the event has a timestamp and a recognized
agent (source lines 758-933).  The alert_key of line 880 is the same string
as the state_key of line 860. -/
def vonage_core (loc : Localizer) (st : ServerState) (postOk : Bool)
    (event_type : String) (timestamp : ℚ) (d : EventData) (agent : String) :
    StepResult :=
  let ct := classifyTrack st event_type timestamp d agent
  let agent_state := finalState ct.1 event_type ct.2.agent_presence_states agent
  let state_key := agent ++ ":" ++ agent_state
  let st₂ := ensureKey ct.2 state_key timestamp
  let duration_min :=
    parse_duration (get_event_duration st₂.agent_state_timestamps agent agent_state timestamp)
  if event_type = "channel.ended.v1" ∨ event_type = "channel.disconnected.v1" ∨
      event_type = "interaction.detailrecord.v0" then
    ⟨⟨200, "skipped", some ("Notifications disabled for " ++ event_type)⟩,
     { st₂ with agent_state_timestamps := aerase state_key st₂.agent_state_timestamps },
     some duration_min, none⟩
  else
    let is_in_shift := is_within_shift loc agent timestamp
    if dedupHit st₂.last_alerts state_key timestamp then
      ⟨⟨200, "skipped", some "Duplicate alert skipped"⟩, st₂, some duration_min, none⟩
    else if should_trigger_alert agent_state duration_min is_in_shift then
      if postOk then
        ⟨⟨200, "posted", none⟩,
         { st₂ with last_alerts := aset state_key timestamp st₂.last_alerts },
         some duration_min, some ⟨agent, agent_state, duration_min, timestamp, true⟩⟩
      else
        ⟨⟨200, "posted", none⟩, st₂, some duration_min,
         some ⟨agent, agent_state, duration_min, timestamp, false⟩⟩
    else
      ⟨⟨200, "posted", none⟩, st₂, some duration_min, none⟩

/-- The full /vonage-events handler (source lines 671-936): reject missing
JSON and missing event type with 400, always skip alerted/connected call
notices, resolve the timestamp (400 on parse failure), resolve and validate
the agent (200-skip otherwise), then run the classification / duration /
decision tail.  `now` is the server's arrival clock, used only when the
"time" field is absent. -/
def vonage_events (loc : Localizer) (st : ServerState) (now : ℚ)
    (req : Option Envelope) (postOk : Bool) : StepResult :=
  match req with
  | none => ⟨⟨400, "error", some "No JSON data in request"⟩, st, none, none⟩
  | some data =>
    match data.etype with
    | none => ⟨⟨400, "error", some "Missing event type"⟩, st, none, none⟩
    | some event_type =>
      if event_type = "channel.alerted.v1" ∨ event_type = "channel.connected.v1" then
        ⟨⟨200, "skipped", some ("Event type " ++ event_type ++ " not processed")⟩,
         st, none, none⟩
      else
        match timeValue data.time now with
        | none => ⟨⟨400, "error", some "Invalid timestamp"⟩, st, none, none⟩
        | some timestamp =>
          match agentValue event_type data.data with
          | none =>
            ⟨⟨200, "skipped", some "Agent name not found, event skipped"⟩, st, none, none⟩
          | some agent =>
            if (alookup agent_shifts agent).isNone then
              ⟨⟨200, "skipped", some "Unrecognized agent name"⟩, st, none, none⟩
            else
              vonage_core loc st postOk event_type timestamp data.data agent

/-- One request after another: the sequence of webhook calls, each carrying
its arrival clock, its parsed envelope and whether the Slack post would
succeed; returns the final state and all alerts fired along the way. -/
structure EventIn where
  now : ℚ
  req : Option Envelope
  postOk : Bool

def processEvents (loc : Localizer) : ServerState → List EventIn →
    ServerState × List FiredAlert
  | st, [] => (st, [])
  | st, e :: rest =>
    let r := vonage_events loc st e.now e.req e.postOk
    let pr := processEvents loc r.state rest
    (pr.1, r.fired.toList ++ pr.2)

/-! ## Fired-alert projections used by the de-duplication invariant -/

/-- Event-time stamps of the delivered fires whose de-duplication key
(the f-string "agent:state" of source line 880) equals k, in firing order. -/
def firesKey (l : List FiredAlert) (k : String) : List ℚ :=
  (l.filter fun f => f.delivered && (f.agent ++ ":" ++ f.stateName == k)).map FiredAlert.time

/-- Event-time stamps of the delivered fires for the fingerprint (a, s),
in firing order. -/
def firesFor (l : List FiredAlert) (a s : String) : List ℚ :=
  (l.filter fun f => f.delivered && (f.agent == a) && (f.stateName == s)).map FiredAlert.time

/-! ## Concrete inputs used by counterexamples and witnesses -/

/-- A fixed localizer: every instant is Monday midnight local time. -/
def locM : Localizer := fun _ _ => ("Mon", 0)

/-- An envelope data object with every optional member absent. -/
def emptyData : EventData := ⟨none, none, none, "", "", ""⟩

/-- The data object of a presence-change event for Briana Roque with
category type "lunch". -/
def lunchData : EventData :=
  ⟨some ⟨some "Briana Roque", none, none⟩, none, none, "lunch", "", ""⟩

/-- A presence-change envelope for Briana Roque classifying to Lunch. -/
def lunchEnv (t : ℚ) : Envelope :=
  ⟨some "agent.presencechanged.v1", TimeField.valid t, lunchData⟩

/-- A presence-change envelope for Briana Roque classifying to Ready. -/
def readyEnv (t : ℚ) : Envelope :=
  ⟨some "agent.presencechanged.v1", TimeField.valid t,
   ⟨some ⟨some "Briana Roque", none, none⟩, none, none, "ready", "", ""⟩⟩

/-- A channel.wrapstarted.v1 envelope whose channel carries a party role
and the given agent name. -/
def wrapEnv (a : String) (t : ℚ) : Envelope :=
  ⟨some "channel.wrapstarted.v1", TimeField.valid t,
   ⟨none, none, some ⟨true, some a, none⟩, "", "", ""⟩⟩

/-- A channel.wrapstarted.v1 envelope naming an agent that is not in
agent_shifts. -/
def nobodyEnv : Envelope :=
  ⟨some "channel.wrapstarted.v1", TimeField.valid 0,
   ⟨none, none, some ⟨true, some "Nobody", none⟩, "", "", ""⟩⟩

/-! ## Dictionary lemmas and sanity checks -/

theorem alookup_aset_self {β : Type} (key : String) (v : β) (l : List (String × β)) :
    alookup (aset key v l) key = some v := by
  induction l with
  | nil => simp [aset, alookup]
  | cons hd tl ih =>
    obtain ⟨k, w⟩ := hd
    by_cases h : k = key <;> simp [aset, alookup, h, ih]

theorem alookup_aset_ne {β : Type} {key key' : String} (v : β) (l : List (String × β))
    (h : key' ≠ key) : alookup (aset key v l) key' = alookup l key' := by
  induction l with
  | nil =>
    have h' : ¬ key = key' := fun hh => h hh.symm
    simp [aset, alookup, h']
  | cons hd tl ih =>
    obtain ⟨k, w⟩ := hd
    by_cases hk : k = key
    · subst hk
      have h' : ¬ k = key' := fun hh => h hh.symm
      simp [aset, alookup, h']
    · simp [aset, alookup, hk, ih]

example : parse12 "12am" = some 0 := by decide
example : parse12 "4pm" = some 960 := by decide
example : parse12 "11am" = some 660 := by decide
example : should_trigger_alert "Wrap" 2 true = false := by
  simp [should_trigger_alert]
example : should_trigger_alert "Wrap" (201/100) true = true := by
  simp [should_trigger_alert]
  norm_num


/-! ## Helper lemmas about the handler -/

set_option maxHeartbeats 1000000 in
/-- Every state name the presence classifier can output is nonempty. -/
theorem classify_presence_ne_empty {d : EventData} {s : String}
    (h : classify_presence d = some s) : ¬ s = "" := by
  unfold classify_presence at h
  dsimp only at h
  split_ifs at h <;> (injection h with h; subst h; decide)

/-- The classification stage never touches the last_alerts dictionary. -/
theorem classifyTrack_last_alerts (st : ServerState) (ty : String) (t : ℚ)
    (d : EventData) (a : String) :
    (classifyTrack st ty t d a).2.last_alerts = st.last_alerts := by
  unfold classifyTrack
  split_ifs
  · cases classify_presence d <;> rfl
  · dsimp only
    split <;> (try split) <;> rfl
  · rfl

/-- Ensuring an entry timestamp never touches the last_alerts dictionary. -/
theorem ensureKey_last_alerts (st : ServerState) (key : String) (t : ℚ) :
    (ensureKey st key t).last_alerts = st.last_alerts := by
  unfold ensureKey
  split <;> rfl

/-- When the de-duplication gate does not suppress, any recorded prior fire
for the key lies at least 5 minutes before the event. -/
theorem dedupHit_false_lookup {la : List (String × ℚ)} {key : String} {t tl : ℚ}
    (h : ¬ dedupHit la key t = true) (hl : alookup la key = some tl) :
    ¬ (t - tl) / 60 < 5 := by
  unfold dedupHit at h
  rw [hl] at h
  simpa using h

/-- How one run of the handler tail treats the de-duplication dictionary:
either nothing fires and last_alerts is untouched; or a fire fails delivery
and last_alerts is untouched; or a delivered fire overwrites exactly its own
key with the event time, and any recorded prior fire for that key was at
least 5 minutes earlier. -/
theorem core_alerts (loc : Localizer) (st : ServerState) (postOk : Bool)
    (ty : String) (t : ℚ) (d : EventData) (a : String) :
    ((vonage_core loc st postOk ty t d a).fired = none ∧
      (vonage_core loc st postOk ty t d a).state.last_alerts = st.last_alerts) ∨
    (∃ f, (vonage_core loc st postOk ty t d a).fired = some f ∧ f.delivered = false ∧
      (vonage_core loc st postOk ty t d a).state.last_alerts = st.last_alerts) ∨
    (∃ f, (vonage_core loc st postOk ty t d a).fired = some f ∧ f.delivered = true ∧
      (vonage_core loc st postOk ty t d a).state.last_alerts =
        aset (f.agent ++ ":" ++ f.stateName) f.time st.last_alerts ∧
      (∀ tl, alookup st.last_alerts (f.agent ++ ":" ++ f.stateName) = some tl →
        ¬ (f.time - tl) / 60 < 5)) := by
  have hla : (ensureKey (classifyTrack st ty t d a).2
      (a ++ ":" ++ finalState (classifyTrack st ty t d a).1 ty
        (classifyTrack st ty t d a).2.agent_presence_states a) t).last_alerts =
      st.last_alerts :=
    (ensureKey_last_alerts _ _ _).trans (classifyTrack_last_alerts st ty t d a)
  unfold vonage_core
  dsimp only
  split_ifs with h1 h2 h3 h4
  · left
    exact ⟨rfl, by simpa using hla⟩
  · left
    exact ⟨rfl, by simpa using hla⟩
  · right; right
    refine ⟨_, rfl, rfl, ?_, ?_⟩
    · dsimp only
      rw [hla]
    · intro tl htl
      rw [← hla] at htl
      dsimp only at htl ⊢
      exact dedupHit_false_lookup h2 htl
  · right; left
    exact ⟨_, rfl, rfl, by simpa using hla⟩
  · left
    exact ⟨rfl, by simpa using hla⟩

/-- The handler-level version of core_alerts: every request either leaves
last_alerts alone (no delivered fire) or records exactly one delivered fire
whose key respects the 5-minute spacing against the prior record. -/
theorem step_alerts (loc : Localizer) (st : ServerState) (now : ℚ)
    (req : Option Envelope) (postOk : Bool) :
    ((vonage_events loc st now req postOk).fired = none ∧
      (vonage_events loc st now req postOk).state.last_alerts = st.last_alerts) ∨
    (∃ f, (vonage_events loc st now req postOk).fired = some f ∧ f.delivered = false ∧
      (vonage_events loc st now req postOk).state.last_alerts = st.last_alerts) ∨
    (∃ f, (vonage_events loc st now req postOk).fired = some f ∧ f.delivered = true ∧
      (vonage_events loc st now req postOk).state.last_alerts =
        aset (f.agent ++ ":" ++ f.stateName) f.time st.last_alerts ∧
      (∀ tl, alookup st.last_alerts (f.agent ++ ":" ++ f.stateName) = some tl →
        ¬ (f.time - tl) / 60 < 5)) := by
  unfold vonage_events
  cases req with
  | none => exact Or.inl ⟨rfl, rfl⟩
  | some env =>
    obtain ⟨et, tm, dt⟩ := env
    dsimp only
    cases et with
    | none => exact Or.inl ⟨rfl, rfl⟩
    | some ty =>
      dsimp only
      split_ifs with h1
      · exact Or.inl ⟨rfl, rfl⟩
      · cases tm with
        | malformed => exact Or.inl ⟨rfl, rfl⟩
        | absent =>
          dsimp only [timeValue]
          cases agentValue ty dt with
          | none => exact Or.inl ⟨rfl, rfl⟩
          | some ag =>
            dsimp only
            split_ifs with h2
            · exact Or.inl ⟨rfl, rfl⟩
            · exact core_alerts loc st postOk ty now dt ag
        | valid tv =>
          dsimp only [timeValue]
          cases agentValue ty dt with
          | none => exact Or.inl ⟨rfl, rfl⟩
          | some ag =>
            dsimp only
            split_ifs with h2
            · exact Or.inl ⟨rfl, rfl⟩
            · exact core_alerts loc st postOk ty tv dt ag

/-- The handler tail always answers HTTP 200. -/
theorem core_code_200 (loc : Localizer) (st : ServerState) (postOk : Bool)
    (ty : String) (t : ℚ) (d : EventData) (a : String) :
    (vonage_core loc st postOk ty t d a).resp.code = 200 := by
  unfold vonage_core
  dsimp only
  split_ifs <;> rfl

/-- Surviving the strict sub-5-minute suppression means being at least 300
seconds after the recorded fire. -/
theorem gap_of_not_lt {t tl : ℚ} (h : ¬ (t - tl) / 60 < 5) : tl + 300 ≤ t := by
  rw [not_lt, le_div_iff₀ (by norm_num : (0:ℚ) < 60)] at h
  linarith

/-- The de-duplication invariant, by induction over the request sequence:
for every key, the delivered fires are spaced by at least 300 seconds
consecutively, and the first one is at least 300 seconds after whatever
last_alerts already recorded for that key. -/
theorem processEvents_chain (loc : Localizer) (evts : List EventIn) :
    ∀ (st : ServerState) (k : String),
      List.Chain' (fun x y : ℚ => x + 300 ≤ y) (firesKey (processEvents loc st evts).2 k) ∧
      (∀ t0 tl, (firesKey (processEvents loc st evts).2 k).head? = some t0 →
        alookup st.last_alerts k = some tl → tl + 300 ≤ t0) := by
  induction evts with
  | nil =>
    intro st k
    simp [processEvents, firesKey]
  | cons e rest ih =>
    intro st k
    have hstep := step_alerts loc st e.now e.req e.postOk
    rcases hstep with ⟨hf, hla⟩ | ⟨f, hf, hdel, hla⟩ | ⟨f, hf, hdel, hla, hgap⟩
    · have hrw : (processEvents loc st (e :: rest)).2 =
          (processEvents loc (vonage_events loc st e.now e.req e.postOk).state rest).2 := by
        simp [processEvents, hf]
      rw [hrw]
      refine ⟨(ih _ k).1, fun t0 tl h0 hl => (ih _ k).2 t0 tl h0 ?_⟩
      rw [hla]
      exact hl
    · have hrw : firesKey (processEvents loc st (e :: rest)).2 k =
          firesKey (processEvents loc
            (vonage_events loc st e.now e.req e.postOk).state rest).2 k := by
        simp [processEvents, hf, firesKey, hdel]
      rw [hrw]
      refine ⟨(ih _ k).1, fun t0 tl h0 hl => (ih _ k).2 t0 tl h0 ?_⟩
      rw [hla]
      exact hl
    · by_cases hk : f.agent ++ ":" ++ f.stateName = k
      · have hrw : firesKey (processEvents loc st (e :: rest)).2 k =
            f.time :: firesKey (processEvents loc
              (vonage_events loc st e.now e.req e.postOk).state rest).2 k := by
          simp [processEvents, hf, firesKey, hdel, hk]
        rw [hrw]
        constructor
        · rw [List.chain'_cons']
          refine ⟨fun y hy => ?_, (ih _ k).1⟩
          refine (ih _ k).2 y f.time (by simpa using hy) ?_
          rw [hla, hk]
          exact alookup_aset_self k f.time st.last_alerts
        · intro t0 tl h0 hl
          obtain rfl : f.time = t0 := by simpa using h0
          exact gap_of_not_lt (hgap tl (by rw [hk]; exact hl))
      · have hrw : firesKey (processEvents loc st (e :: rest)).2 k =
            firesKey (processEvents loc
              (vonage_events loc st e.now e.req e.postOk).state rest).2 k := by
          simp [processEvents, hf, firesKey, hdel, hk]
        rw [hrw]
        refine ⟨(ih _ k).1, fun t0 tl h0 hl => (ih _ k).2 t0 tl h0 ?_⟩
        rw [hla, alookup_aset_ne _ _ (fun hh => hk hh.symm)]
        exact hl



/-- An activity-record envelope for Briana Roque whose interaction carries
state "Wrap" and the given startTime, and no endTime. -/
def activityEnv (t ts : ℚ) : Envelope :=
  ⟨some "channel.activityrecord.v0", TimeField.valid t,
   ⟨none, some ⟨some ⟨some "Briana Roque", none⟩, none, "Wrap", TimeField.valid ts,
     TimeField.absent⟩, none, "", "", ""⟩⟩

/-! ## Claim C1: does reusing the same state keep the entry timestamp? -/

/-- An activity record does reset an existing entry: with (Briana Roque,
Wrap) recorded at t = 0, an activity record at t = 600 whose interaction
startTime is 300 overwrites the entry with 300 (source line 817), so the
computed elapsed time is 5 minutes — neither 0 nor the 10-minute delta from
the first entry. -/
theorem activityrecord_overwrites_entry :
    (vonage_events locM ⟨[], [("Briana Roque:Wrap", 0)], []⟩ 600
      (some (activityEnv 600 300)) true).durationMin = some 5 ∧
    alookup (vonage_events locM ⟨[], [("Briana Roque:Wrap", 0)], []⟩ 600
      (some (activityEnv 600 300)) true).state.agent_state_timestamps
      ("Briana Roque" ++ ":" ++ "Wrap") = some 300 := by
  constructor <;>
    simp [vonage_events, vonage_core, classifyTrack, classify_presence, strLower,
      lowerChar, strContains, finalState, channel_state, ensureKey, dedupHit,
      get_event_duration, parse_duration, agentValue, extract_agent, pyOr, truthyStr,
      loopAgent, timeValue, alookup, aset, aerase, agent_shifts, is_within_shift,
      parse12, digitsToNat, should_trigger_alert, activityEnv, locM, Option.getD] <;>
    norm_num [alookup]

/-- Claim C1 counterexample: two consecutive presence-change events for
Briana Roque, both classifying to Lunch, at t = 0s and t = 600s from the
empty start state.  The claim requires the second event's computed elapsed
time to equal the 600-second delta from the first entry into Lunch
(10 minutes), but the presence branch (source line 795) overwrites the
(agent, state) entry timestamp on every classified presence event — even
when the state is unchanged — so the handler computes 0 minutes. -/
theorem C1_counterexample :
    (vonage_events locM
      (vonage_events locM initState 0 (some (lunchEnv 0)) true).state
      0 (some (lunchEnv 600)) true).durationMin = some 0 ∧
    some (0 : ℚ) ≠ some (((600 : ℚ) - 0) * 1000 / 1000 / 60) := by
  constructor
  · simp [vonage_events, vonage_core, classifyTrack, classify_presence, strLower,
      lowerChar, strContains, finalState, channel_state, ensureKey, dedupHit,
      get_event_duration, parse_duration, agentValue, extract_agent, pyOr, truthyStr,
      loopAgent, timeValue, alookup, aset, aerase, agent_shifts, is_within_shift,
      parse12, digitsToNat, should_trigger_alert, initState, lunchEnv, lunchData,
      locM, Option.getD]
    norm_num
  · norm_num

/-- Claim C1 (amended): the same-state-keeps-the-timer behaviour holds for
every event that classifies through the channel lifecycle table or through
fallback reuse of the agent's stored presence state — that is, every event
whose kind is not agent.presencechanged.v1, not channel.activityrecord.v0,
not an always-skipped call-progress kind, and not one of the
notification-suppressed kinds (channel.ended.v1, channel.disconnected.v1,
interaction.detailrecord.v0, which compute the elapsed time and then retire
the entry).  For such an event arriving while an entry timestamp for
(agent, S) is already recorded at t0, the handler leaves the stored
timestamp at t0 and reports the elapsed time as the delta from t0.  A
presence-change event, by contrast, overwrites the stored timestamp on
every classified event, even when the state is unchanged (see the
counterexample); an activity record likewise overwrites an existing entry,
with the interaction's startTime. -/
theorem C1_nonpresence_same_state_keeps_timer (loc : Localizer)
    (st : ServerState) (now : ℚ) (postOk : Bool) (env : Envelope)
    (ty S a : String) (t t0 : ℚ)
    (henv : env.etype = some ty)
    (htime : env.time = TimeField.valid t)
    (hp : ¬ ty = "agent.presencechanged.v1")
    (har : ¬ ty = "channel.activityrecord.v0")
    (hsk : ¬ (ty = "channel.alerted.v1" ∨ ty = "channel.connected.v1"))
    (hns : ¬ (ty = "channel.ended.v1" ∨ ty = "channel.disconnected.v1" ∨
      ty = "interaction.detailrecord.v0"))
    (hag : agentValue ty env.data = some a)
    (hknown : ¬ alookup agent_shifts a = none)
    (hS : finalState none ty st.agent_presence_states a = S)
    (hkey : alookup st.agent_state_timestamps (a ++ ":" ++ S) = some t0) :
    (vonage_events loc st now (some env) postOk).durationMin =
      some ((t - t0) * 1000 / 1000 / 60) ∧
    alookup (vonage_events loc st now
      (some env) postOk).state.agent_state_timestamps (a ++ ":" ++ S) = some t0 := by
  unfold vonage_events
  simp [henv, htime, hsk, timeValue, hag, hknown, Option.isNone_iff_eq_none,
    vonage_core, classifyTrack, hp, har, hS, ensureKey, hkey, get_event_duration,
    parse_duration, hns, dedupHit]
  split_ifs <;> simp_all [hkey]

/-- Claim C1 witness: Briana Roque entered Wrap at t = 0; a second
wrap-started event at t = 600 reports a 10-minute elapsed time and keeps
the stored entry timestamp at 0. -/
theorem C1_witness :
    (vonage_events locM ⟨[], [("Briana Roque:Wrap", 0)], []⟩ 600
      (some (wrapEnv "Briana Roque" 600)) true).durationMin =
      some (((600 : ℚ) - 0) * 1000 / 1000 / 60) ∧
    alookup (vonage_events locM ⟨[], [("Briana Roque:Wrap", 0)], []⟩ 600
      (some (wrapEnv "Briana Roque" 600)) true).state.agent_state_timestamps
      ("Briana Roque" ++ ":" ++ "Wrap") = some 0 :=
  C1_nonpresence_same_state_keeps_timer locM ⟨[], [("Briana Roque:Wrap", 0)], []⟩
    600 true (wrapEnv "Briana Roque" 600) "channel.wrapstarted.v1" "Wrap"
    "Briana Roque" 600 0 rfl rfl (by decide) (by decide) (by decide) (by decide)
    (by decide) (by decide) (by decide) (by decide)

/-! ## Claim C2: does a state transition reset the duration to zero? -/

/-- Claim C2 counterexample: Briana Roque enters Wrap via
channel.wrapstarted.v1 at t = 0s, then transitions to Ready via a presence
change at t = 60s (the stored presence record now says Ready), then
transitions back Ready → Wrap via a second channel.wrapstarted.v1 at
t = 600s.  The claim requires the transition event's elapsed minutes to be
0, but the stale (Briana Roque, Wrap) entry timestamp from the earlier
visit was never cleared and wrapstarted events only create the entry when
it is absent (source line 861), so the handler computes 10 minutes. -/
theorem C2_counterexample :
    alookup (vonage_events locM
      (vonage_events locM initState 0 (some (wrapEnv "Briana Roque" 0)) true).state
      0 (some (readyEnv 60)) true).state.agent_presence_states "Briana Roque" =
      some ("Ready", 60) ∧
    (vonage_events locM
      (vonage_events locM
        (vonage_events locM initState 0 (some (wrapEnv "Briana Roque" 0)) true).state
        0 (some (readyEnv 60)) true).state
      0 (some (wrapEnv "Briana Roque" 600)) true).durationMin = some 10 ∧
    some (10 : ℚ) ≠ some (0 : ℚ) := by
  refine ⟨?_, ?_, by norm_num⟩
  · simp [vonage_events, vonage_core, classifyTrack, classify_presence, strLower,
      lowerChar, strContains, finalState, channel_state, ensureKey, dedupHit,
      get_event_duration, parse_duration, agentValue, extract_agent, pyOr, truthyStr,
      loopAgent, timeValue, alookup, aset, aerase, agent_shifts, is_within_shift,
      parse12, digitsToNat, should_trigger_alert, initState, readyEnv, wrapEnv,
      locM, Option.getD]
  · simp [vonage_events, vonage_core, classifyTrack, classify_presence, strLower,
      lowerChar, strContains, finalState, channel_state, ensureKey, dedupHit,
      get_event_duration, parse_duration, agentValue, extract_agent, pyOr, truthyStr,
      loopAgent, timeValue, alookup, aset, aerase, agent_shifts, is_within_shift,
      parse12, digitsToNat, should_trigger_alert, initState, readyEnv, wrapEnv,
      locM, Option.getD]
    norm_num

/-- Claim C2 (amended): a transition observed through a classified
presence-change event does reset the tracked duration — the entry timestamp
for the new state is overwritten with the event's occurredAt, and the
elapsed minutes computed for the transition event are 0, whatever the prior
state and whatever stale entry existed from an earlier visit.  For
transitions observed through channel lifecycle events the reset only
happens when no stale entry for (agent, newState) exists; otherwise the
stale timestamp is reused and the elapsed time is nonzero (see the
counterexample). -/
theorem C2_presence_transition_resets (loc : Localizer) (st : ServerState)
    (postOk : Bool) (d : EventData) (s a : String) (t : ℚ)
    (hcs : classify_presence d = some s)
    (hag : agentValue "agent.presencechanged.v1" d = some a)
    (hknown : ¬ alookup agent_shifts a = none) :
    (vonage_events loc st t
      (some ⟨some "agent.presencechanged.v1", TimeField.valid t, d⟩)
      postOk).durationMin = some 0 ∧
    alookup (vonage_events loc st t
      (some ⟨some "agent.presencechanged.v1", TimeField.valid t, d⟩)
      postOk).state.agent_state_timestamps (a ++ ":" ++ s) = some t := by
  have hs := classify_presence_ne_empty hcs
  unfold vonage_events
  simp [timeValue, hag, hknown, Option.isNone_iff_eq_none, vonage_core, classifyTrack,
    hcs, finalState, hs, ensureKey, alookup_aset_self, get_event_duration,
    parse_duration, dedupHit]
  split_ifs <;> simp_all [alookup_aset_self]

/-- Claim C2 witness: Briana Roque carries a stale Lunch entry timestamp
from t = 0, and a presence-change event classifying to Lunch at t = 5
still computes elapsed 0 and stores 5 as the new entry timestamp. -/
theorem C2_witness :
    (vonage_events locM ⟨[], [("Briana Roque:Lunch", 0)], []⟩ 5
      (some ⟨some "agent.presencechanged.v1", TimeField.valid 5, lunchData⟩)
      true).durationMin = some 0 ∧
    alookup (vonage_events locM ⟨[], [("Briana Roque:Lunch", 0)], []⟩ 5
      (some ⟨some "agent.presencechanged.v1", TimeField.valid 5, lunchData⟩)
      true).state.agent_state_timestamps ("Briana Roque" ++ ":" ++ "Lunch") = some 5 :=
  C2_presence_transition_resets locM ⟨[], [("Briana Roque:Lunch", 0)], []⟩ true
    lunchData "Lunch" "Briana Roque" 5 (by decide) (by decide) (by decide)

/-! ## Claim C3: the alert decision table -/

/-- Claim C3 counterexample: the claim's immediate-fire row includes Away
and Extended Away, but the source's immediate list (line 608) is
["Device Busy", "Device Unreachable", "Fault", "In Meeting", "Paperwork",
"Team Meeting", "Training"] — it contains neither Away nor Extended Away,
and no other branch mentions them, so they never fire even at a large
elapsed time while on shift. -/
theorem C3_counterexample :
    should_trigger_alert "Away" 100 true = false ∧
    should_trigger_alert "Extended Away" 100 true = false := by
  constructor <;> simp [should_trigger_alert]

/-- Claim C3 (amended): decide(state, elapsedMinutes, onShift) is true
exactly per the source's threshold table, every duration bound strict:
Wrap/Outgoing Wrap Up iff elapsed > 2; Ready/Ready Outbound/Idle/
Idle (Outbound) iff elapsed > 2 and onShift; Busy iff > 8; Lunch iff > 30;
Break iff > 15; Comfort Break iff > 5; Logged Out iff onShift; Device Busy,
Device Unreachable, Fault, In Meeting, Paperwork, Team Meeting and Training
immediately; every other state — including Away and Extended Away — never.
In particular Wrap at exactly 2 minutes does not fire and at 2.01 does. -/
theorem C3_decision_table (s : String) (d : ℚ) (onShift : Bool) :
    should_trigger_alert s d onShift = true ↔
      (((s = "Wrap" ∨ s = "Outgoing Wrap Up") ∧ d > 2) ∨
       ((s = "Ready" ∨ s = "Ready Outbound" ∨ s = "Idle" ∨ s = "Idle (Outbound)") ∧
         d > 2 ∧ onShift = true) ∨
       (s = "Busy" ∧ d > 8) ∨
       (s = "Lunch" ∧ d > 30) ∨
       (s = "Break" ∧ d > 15) ∨
       (s = "Comfort Break" ∧ d > 5) ∨
       (s = "Logged Out" ∧ onShift = true) ∨
       (s = "Device Busy" ∨ s = "Device Unreachable" ∨ s = "Fault" ∨
        s = "In Meeting" ∨ s = "Paperwork" ∨ s = "Team Meeting" ∨ s = "Training")) := by
  unfold should_trigger_alert
  split_ifs <;> simp_all

/-! ## Claims C5 and C6: the shift calendar -/

/-- is_within_shift succeeds exactly when the agent is known, the local
weekday is staffed, both window bounds parse under strptime("%I%p"), and
the local minute of day lies inclusively between them. -/
theorem is_within_shift_iff (loc : Localizer) (a : String) (ts : ℚ) :
    is_within_shift loc a ts = true ↔
      (∃ tzname shifts startStr endStr sMin eMin,
        alookup agent_shifts a = some (tzname, shifts) ∧
        alookup shifts (loc tzname ts).1 = some (startStr, endStr) ∧
        parse12 startStr = some sMin ∧ parse12 endStr = some eMin ∧
        (sMin : ℚ) ≤ (loc tzname ts).2 ∧ (loc tzname ts).2 ≤ (eMin : ℚ)) := by
  unfold is_within_shift
  cases h1 : alookup agent_shifts a with
  | none => simp [h1]
  | some tzs =>
    obtain ⟨tzname, shifts⟩ := tzs
    cases h2 : alookup shifts (loc tzname ts).1 with
    | none =>
      simp only [h2, Bool.false_eq_true, false_iff]
      rintro ⟨tz', sh', s', e', sm', em', hh1, hh2, -⟩
      obtain ⟨rfl, rfl⟩ : tzname = tz' ∧ shifts = sh' := by
        injection hh1 with h
        exact ⟨congrArg Prod.fst h, congrArg Prod.snd h⟩
      rw [h2] at hh2
      exact Option.noConfusion hh2
    | some se =>
      obtain ⟨startStr, endStr⟩ := se
      cases h3 : parse12 startStr with
      | none =>
        simp only [h2, h3, Bool.false_eq_true, false_iff]
        rintro ⟨tz', sh', s', e', sm', em', hh1, hh2, hh3, -⟩
        obtain ⟨rfl, rfl⟩ : tzname = tz' ∧ shifts = sh' := by
          injection hh1 with h
          exact ⟨congrArg Prod.fst h, congrArg Prod.snd h⟩
        rw [h2] at hh2
        obtain ⟨rfl, rfl⟩ : startStr = s' ∧ endStr = e' := by
          injection hh2 with h
          exact ⟨congrArg Prod.fst h, congrArg Prod.snd h⟩
        rw [h3] at hh3
        exact Option.noConfusion hh3
      | some sMin =>
        cases h4 : parse12 endStr with
        | none =>
          simp only [h2, h3, h4, Bool.false_eq_true, false_iff]
          rintro ⟨tz', sh', s', e', sm', em', hh1, hh2, hh3, hh4, -⟩
          obtain ⟨rfl, rfl⟩ : tzname = tz' ∧ shifts = sh' := by
            injection hh1 with h
            exact ⟨congrArg Prod.fst h, congrArg Prod.snd h⟩
          rw [h2] at hh2
          obtain ⟨rfl, rfl⟩ : startStr = s' ∧ endStr = e' := by
            injection hh2 with h
            exact ⟨congrArg Prod.fst h, congrArg Prod.snd h⟩
          rw [h4] at hh4
          exact Option.noConfusion hh4
        | some eMin =>
          simp only [h2, h3, h4, decide_eq_true_eq]
          constructor
          · rintro ⟨hs, he⟩
            exact ⟨tzname, shifts, startStr, endStr, sMin, eMin, rfl, h2, h3, h4, hs, he⟩
          · rintro ⟨tz', sh', s', e', sm', em', hh1, hh2, hh3, hh4, hh5, hh6⟩
            obtain ⟨rfl, rfl⟩ : tzname = tz' ∧ shifts = sh' := by
              injection hh1 with h
              exact ⟨congrArg Prod.fst h, congrArg Prod.snd h⟩
            rw [h2] at hh2
            obtain ⟨rfl, rfl⟩ : startStr = s' ∧ endStr = e' := by
              injection hh2 with h
              exact ⟨congrArg Prod.fst h, congrArg Prod.snd h⟩
            rw [h3] at hh3
            rw [h4] at hh4
            obtain rfl : sm' = sMin := (Option.some_injective _ hh3).symm
            obtain rfl : em' = eMin := (Option.some_injective _ hh4).symm
            exact ⟨hh5, hh6⟩

/-- The Logged Out branch of the decision engine returns the on-shift flag
unchanged: no duration condition is attached (source lines 606-607). -/
theorem should_trigger_loggedout (d : ℚ) (b : Bool) :
    should_trigger_alert "Logged Out" d b = b := by
  cases b <;> simp [should_trigger_alert]

/-- Claim C5: an alert for the Logged Out state fires if and only if the
agent's configured shift window for the event's local weekday contains the
event's local time under the code's parsed-window containment test
start_time <= local_time <= end_time, with no duration requirement; off
shift (including unknown agent or unstaffed day) it never fires, for every
elapsed time. -/
theorem C5_loggedout_iff_in_shift (loc : Localizer) (a : String) (ts d : ℚ) :
    should_trigger_alert "Logged Out" d (is_within_shift loc a ts) = true ↔
      (∃ tzname shifts startStr endStr sMin eMin,
        alookup agent_shifts a = some (tzname, shifts) ∧
        alookup shifts (loc tzname ts).1 = some (startStr, endStr) ∧
        parse12 startStr = some sMin ∧ parse12 endStr = some eMin ∧
        (sMin : ℚ) ≤ (loc tzname ts).2 ∧ (loc tzname ts).2 ≤ (eMin : ℚ)) := by
  rw [should_trigger_loggedout]
  exact is_within_shift_iff loc a ts

/-- Claim C6: a configured shift window whose end string is "12am" parses
to an empty window — strptime anchors "12am" at midnight at the start of
the same local day, so with a positive start minute the containment test
start_time <= local_time <= end_time is unsatisfiable and is_within_shift
is false at every local instant of that weekday.  This covers Carla
Hagerman's Sat 4pm-12am window and all five of Rebecca Stokes's 4pm-12am
windows. -/
theorem C6_midnight_end_unstaffable (loc : Localizer) (a : String) (ts : ℚ)
    (tzname : String) (shifts : List (String × String × String))
    (startStr : String) (sMin : ℕ)
    (h1 : alookup agent_shifts a = some (tzname, shifts))
    (h2 : alookup shifts (loc tzname ts).1 = some (startStr, "12am"))
    (h3 : parse12 startStr = some sMin) (h4 : 0 < sMin) :
    is_within_shift loc a ts = false := by
  have h12 : parse12 "12am" = some 0 := by decide
  unfold is_within_shift
  rw [h1]
  simp only [h2, h3, h12]
  simp only [decide_eq_false_iff_not, not_and, not_le, Nat.cast_zero]
  intro hs
  have h0 : (0 : ℚ) < (sMin : ℚ) := by exact_mod_cast h4
  linarith

/-- Claim C6 witness: Carla Hagerman, localized to Saturday 5pm local
(minute 1020), inside the advertised Sat 4pm-12am window, is reported off
shift. -/
theorem C6_witness :
    is_within_shift (fun _ _ => ("Sat", 1020)) "Carla Hagerman" 0 = false :=
  C6_midnight_end_unstaffable (fun _ _ => ("Sat", 1020)) "Carla Hagerman" 0
    "US/Eastern"
    [("Tue", ("10am", "6pm")), ("Wed", ("10am", "6pm")), ("Thu", ("10am", "6pm")),
     ("Fri", ("10am", "6pm")), ("Sat", ("4pm", "12am"))]
    "4pm" 960 (by decide) (by decide) (by decide) (by decide)

/-! ## Claim C4: the 5-minute de-duplication window -/

/-- Claim C4: for every localizer, start state, request sequence and
fingerprint (agent, state), the delivered fires for that fingerprint are
pairwise at least 5 minutes apart in event time.  Before firing, a recorded
prior fire for the fingerprint strictly within 5 minutes of the event
timestamp suppresses the alert (source lines 879-886), and each delivered
fire overwrites the fingerprint's recorded timestamp with the event
timestamp (source lines 925-928); fires whose Slack delivery fails do not
update the record and are not counted as fires. -/
theorem C4_dedup_five_minutes (loc : Localizer) (st : ServerState)
    (evts : List EventIn) (a s : String) :
    List.Pairwise (fun x y : ℚ => 5 ≤ (y - x) / 60)
      (firesFor (processEvents loc st evts).2 a s) := by
  have hchain := (processEvents_chain loc evts st (a ++ ":" ++ s)).1
  haveI : IsTrans ℚ (fun x y : ℚ => x + 300 ≤ y) :=
    ⟨by intro x y z h1 h2; linarith⟩
  rw [List.chain'_iff_pairwise] at hchain
  have hsub : List.Sublist (firesFor (processEvents loc st evts).2 a s)
      (firesKey (processEvents loc st evts).2 (a ++ ":" ++ s)) := by
    unfold firesFor firesKey
    refine List.Sublist.map FiredAlert.time (List.monotone_filter_right _ ?_)
    intro f hf
    simp only [Bool.and_eq_true, beq_iff_eq] at hf ⊢
    obtain ⟨⟨hd, hag⟩, hst⟩ := hf
    exact ⟨hd, by rw [hag, hst]⟩
  refine (hchain.sublist hsub).imp ?_
  intro x y h
  rw [le_div_iff₀ (by norm_num : (0:ℚ) < 60)]
  linarith

/-! ## Claims C7 and C10: the "time" field -/

/-- Claim C7 counterexample: an envelope of kind channel.alerted.v1 whose
"time" field is present but unparseable is answered 200/"skipped", not 400,
because the alerted/connected skip (source lines 688-690) runs before the
timestamp is parsed; the claim as stated demands a 400 for every envelope
with an unparseable time. -/
theorem C7_counterexample :
    (vonage_events locM initState 0
      (some ⟨some "channel.alerted.v1", TimeField.malformed, emptyData⟩)
      true).resp.code = 200 ∧
    ¬ (vonage_events locM initState 0
      (some ⟨some "channel.alerted.v1", TimeField.malformed, emptyData⟩)
      true).resp.code = 400 ∧
    (vonage_events locM initState 0
      (some ⟨some "channel.alerted.v1", TimeField.malformed, emptyData⟩)
      true).state = initState := by
  refine ⟨rfl, by decide, rfl⟩

/-- Claim C7 (amended): for every envelope that carries an event kind other
than the always-skipped call-progress kinds channel.alerted.v1 and
channel.connected.v1, a present-but-unparseable "time" field makes the
handler answer 400 "Invalid timestamp" synchronously, with the global state
untouched, no elapsed time computed and no alert fired.  (An envelope of a
skipped kind is answered 200/"skipped" before the time is read, and an
envelope with no event kind is answered 400 "Missing event type"; in both
cases the state is equally untouched.) -/
theorem C7_malformed_time_rejected (loc : Localizer) (st : ServerState)
    (now : ℚ) (postOk : Bool) (env : Envelope) (ty : String)
    (hty : env.etype = some ty)
    (hskip : ¬(ty = "channel.alerted.v1" ∨ ty = "channel.connected.v1"))
    (htime : env.time = TimeField.malformed) :
    vonage_events loc st now (some env) postOk =
      ⟨⟨400, "error", some "Invalid timestamp"⟩, st, none, none⟩ := by
  unfold vonage_events
  simp [hty, hskip, htime, timeValue]

/-- Claim C7 witness: a presence-change envelope with an unparseable time
is rejected with 400 and no state change. -/
theorem C7_witness :
    vonage_events locM initState 7
      (some ⟨some "agent.presencechanged.v1", TimeField.malformed, emptyData⟩) true =
      ⟨⟨400, "error", some "Invalid timestamp"⟩, initState, none, none⟩ :=
  C7_malformed_time_rejected locM initState 7 true
    ⟨some "agent.presencechanged.v1", TimeField.malformed, emptyData⟩
    "agent.presencechanged.v1" rfl (by decide) rfl

/-- Claim C10: an envelope that carries an event kind but no "time" field
is not rejected — the handler substitutes its own arrival clock (`now`,
modelling datetime.utcnow() at source line 692) and behaves exactly as if
the envelope had carried that timestamp, answering 200. -/
theorem C10_absent_time_uses_arrival (loc : Localizer) (st : ServerState)
    (now : ℚ) (postOk : Bool) (env : Envelope) (ty : String)
    (hty : env.etype = some ty) (htime : env.time = TimeField.absent) :
    vonage_events loc st now (some env) postOk =
      vonage_events loc st now (some { env with time := TimeField.valid now }) postOk ∧
    (vonage_events loc st now (some env) postOk).resp.code = 200 := by
  obtain ⟨et, tm, dt⟩ := env
  simp only at hty htime
  subst hty htime
  constructor
  · rfl
  · unfold vonage_events
    by_cases hc : (ty = "channel.alerted.v1" ∨ ty = "channel.connected.v1")
    · simp [hc]
    · cases hea : agentValue ty dt with
      | none => simp [hc, hea, timeValue]
      | some a =>
        by_cases hk : alookup agent_shifts a = none
        · simp [hc, hea, timeValue, hk]
        · simp [hc, hea, timeValue, hk, core_code_200]

/-- Claim C10 witness: a presence-change envelope with no time field is
processed exactly like one stamped with the arrival clock 9, with a 200
answer. -/
theorem C10_witness :
    vonage_events locM initState 9
      (some ⟨some "agent.presencechanged.v1", TimeField.absent, emptyData⟩) true =
      vonage_events locM initState 9
        (some ⟨some "agent.presencechanged.v1", TimeField.valid 9, emptyData⟩) true ∧
    (vonage_events locM initState 9
      (some ⟨some "agent.presencechanged.v1", TimeField.absent, emptyData⟩)
      true).resp.code = 200 :=
  C10_absent_time_uses_arrival locM initState 9 true
    ⟨some "agent.presencechanged.v1", TimeField.absent, emptyData⟩
    "agent.presencechanged.v1" rfl rfl

/-! ## Claims C8 and C9: skipped events -/

/-- Claim C8: an event that reaches agent resolution (its kind is present
and not an always-skipped call-progress kind, and its time parses) but
whose payload does not resolve to a truthy agent name found in
agent_shifts is answered 200/"skipped" with no side effects: the state is
untouched, no elapsed time is computed, and no alert fires.  (An envelope
that additionally has a missing kind or an unparseable time is answered
400 by the structural guards first, also with no side effects.) -/
theorem C8_unknown_agent_skipped (loc : Localizer) (st : ServerState)
    (now : ℚ) (postOk : Bool) (env : Envelope) (ty : String)
    (hty : env.etype = some ty)
    (hskip : ¬(ty = "channel.alerted.v1" ∨ ty = "channel.connected.v1"))
    (htime : env.time ≠ TimeField.malformed)
    (hagent : ∀ a, extract_agent ty env.data = some a → a ≠ "" →
      alookup agent_shifts a = none) :
    (vonage_events loc st now (some env) postOk).resp.code = 200 ∧
    (vonage_events loc st now (some env) postOk).resp.status = "skipped" ∧
    (vonage_events loc st now (some env) postOk).state = st ∧
    (vonage_events loc st now (some env) postOk).fired = none ∧
    (vonage_events loc st now (some env) postOk).durationMin = none := by
  unfold vonage_events
  have htv : ∃ t, timeValue env.time now = some t := by
    cases henv : env.time with
    | absent => exact ⟨now, rfl⟩
    | malformed => exact absurd henv htime
    | valid t => exact ⟨t, rfl⟩
  obtain ⟨t, htv⟩ := htv
  cases hea : extract_agent ty env.data with
  | none => simp [hty, hskip, htv, agentValue, hea]
  | some a =>
    by_cases ha : a = ""
    · simp [hty, hskip, htv, agentValue, hea, ha]
    · have hk := hagent a hea ha
      simp [hty, hskip, htv, agentValue, hea, ha, hk]

/-- Claim C8 witness: a wrap-started envelope naming the unknown agent
"Nobody" is skipped with 200 and no side effects. -/
theorem C8_witness :
    (vonage_events locM initState 0 (some nobodyEnv) true).resp.code = 200 ∧
    (vonage_events locM initState 0 (some nobodyEnv) true).resp.status = "skipped" ∧
    (vonage_events locM initState 0 (some nobodyEnv) true).state = initState ∧
    (vonage_events locM initState 0 (some nobodyEnv) true).fired = none ∧
    (vonage_events locM initState 0 (some nobodyEnv) true).durationMin = none :=
  C8_unknown_agent_skipped locM initState 0 true nobodyEnv "channel.wrapstarted.v1"
    rfl (by decide) (by decide)
    (by
      intro a ha hb
      have hx : extract_agent "channel.wrapstarted.v1" nobodyEnv.data =
          some "Nobody" := by decide
      rw [hx] at ha
      injection ha with h
      subst h
      decide)

/-- Claim C9: an envelope of kind channel.alerted.v1 or
channel.connected.v1 is skipped immediately (source lines 688-690), before
the timestamp is read, before any classification, and before any
dictionary is touched: the answer is 200/"skipped", the state is returned
unchanged, no elapsed time is computed, and no alert fires. -/
theorem C9_alerted_connected_skipped (loc : Localizer) (st : ServerState)
    (now : ℚ) (env : Envelope) (postOk : Bool)
    (h : env.etype = some "channel.alerted.v1" ∨
      env.etype = some "channel.connected.v1") :
    (vonage_events loc st now (some env) postOk).resp.code = 200 ∧
    (vonage_events loc st now (some env) postOk).resp.status = "skipped" ∧
    (vonage_events loc st now (some env) postOk).state = st ∧
    (vonage_events loc st now (some env) postOk).fired = none ∧
    (vonage_events loc st now (some env) postOk).durationMin = none := by
  unfold vonage_events
  rcases h with h | h <;> simp [h]

/-- Claim C9 witness: a channel.alerted.v1 envelope (even one carrying a
perfectly valid time) is skipped with 200 and no side effects. -/
theorem C9_witness :
    (vonage_events locM initState 0
      (some ⟨some "channel.alerted.v1", TimeField.valid 0, emptyData⟩)
      true).resp.code = 200 ∧
    (vonage_events locM initState 0
      (some ⟨some "channel.alerted.v1", TimeField.valid 0, emptyData⟩)
      true).resp.status = "skipped" ∧
    (vonage_events locM initState 0
      (some ⟨some "channel.alerted.v1", TimeField.valid 0, emptyData⟩)
      true).state = initState ∧
    (vonage_events locM initState 0
      (some ⟨some "channel.alerted.v1", TimeField.valid 0, emptyData⟩)
      true).fired = none ∧
    (vonage_events locM initState 0
      (some ⟨some "channel.alerted.v1", TimeField.valid 0, emptyData⟩)
      true).durationMin = none :=
  C9_alerted_connected_skipped locM initState 0
    ⟨some "channel.alerted.v1", TimeField.valid 0, emptyData⟩ true (Or.inl rfl)

end SlackVonage
